import Mathlib

/-!
Verification of the WebRTC live-stream signaling layer of the repository.

The embedding below translates the two signaling implementations:
  * the primary hooks (broadcaster `useLiveStream` and viewer `useStreamViewer`
    in `src/unnamed/part_004`), and
  * the alternate hooks in `src/src/hooks/useLiveStream.tsx`
into pure Lean functions.  Mutable React refs become fields of explicit state
records; each event handler becomes a function from state (plus the incoming
message or event) to a new state together with the list of emitted side
effects (messages sent on the pub/sub channel, presence-table writes).
SDP descriptions and ICE candidates are opaque payloads modelled as `Nat`.
Timers are modelled by a Boolean "armed" flag: the runtime keeps a one-shot
timeout scheduled until it fires or is cleared, so firing consumes the flag.
-/

/-- Message kinds exchanged on the signaling topic.  The primary
implementation uses the strings viewer-join / offer / answer / ice-candidate;
the alternate implementation uses offer / answer / ice. -/
inductive SignalType where
  | viewerJoin
  | offer
  | answer
  | iceCandidate
deriving DecidableEq, Repr

/-- One signaling message: `\x7b type, from, to?, signal? \x7d` in the source.
The JS field `from` is spelled `sender` here (`from` is reserved in Lean). -/
structure SignalMsg where
  type : SignalType
  sender : String
  recipient : Option String
  signal : Option Nat
deriving DecidableEq, Repr

/-- RTCPeerConnection connection states relevant to the handlers. -/
inductive ConnState where
  | new
  | connecting
  | connected
  | disconnected
  | failed
  | closed
deriving DecidableEq, Repr

/-! ### Association-list map helpers

`peerConnectionsRef` is a JS `Map<string, RTCPeerConnection>`; we model it as
an association list with the JS `Map` operations `has` / `get` / `set` /
`delete`. -/

/-- JS `Map.get`: first binding for the key, if any. -/
def mapGet {β : Type} (l : List (String × β)) (k : String) : Option β :=
  match l with
  | [] => none
  | (k', v) :: t => if k' = k then some v else mapGet t k

/-- JS `Map.has`. -/
def mapHas {β : Type} (l : List (String × β)) (k : String) : Bool :=
  (mapGet l k).isSome

/-- JS `Map.set`: replace the binding if the key is present, else append. -/
def mapSet {β : Type} (l : List (String × β)) (k : String) (v : β) :
    List (String × β) :=
  match l with
  | [] => [(k, v)]
  | (k', v') :: t => if k' = k then (k, v) :: t else (k', v') :: mapSet t k v

/-- JS `Map.delete`: remove every binding for the key. -/
def mapDelete {β : Type} (l : List (String × β)) (k : String) :
    List (String × β) :=
  l.filter (fun p => p.1 ≠ k)

/-! ### Broadcaster side (`useLiveStream` in `src/unnamed/part_004`) -/

/-- One `RTCPeerConnection` held by the broadcaster for one viewer.
`senders` are the tracks added via `pc.addTrack` (`pc.getSenders()`),
`localDescription` / `remoteDescription` the applied SDPs, and
`appliedCandidates` the candidates passed to `pc.addIceCandidate`. -/
structure BPeer where
  senders : List Nat
  localDescription : Option Nat
  remoteDescription : Option Nat
  appliedCandidates : List Nat
deriving DecidableEq, Repr

/-- The broadcaster hook state: the `StreamState` fields consulted by the
signaling code plus the refs (`localStreamRef`, `peerConnectionsRef`).
A `MediaStream` is its list of tracks.  `closedLog` records the viewer ids
whose peer connection had `pc.close()` called on it. -/
structure BroadcasterState where
  isStreaming : Bool
  externalStreamUrl : Option String
  streamKey : Option String
  localStream : Option (List Nat)
  peerConnections : List (String × BPeer)
  closedLog : List String
deriving DecidableEq, Repr

/-- The SDP produced by `pc.createOffer()`; its contents are irrelevant to the
properties proved here, so it is an opaque constant payload. -/
def offerSdp : Nat := 0

/-- The SDP produced by `pc.createAnswer()` on the viewer side. -/
def answerSdp : Nat := 1

/-- `createPeerConnection(viewerId)` from `src/unnamed/part_004` lines 99-151:
bail out if the map already has the viewer; otherwise create the connection,
add the local tracks when a local stream exists, and create/send the offer
only when the local stream has at least one track (otherwise the offer is
deferred to the media-attach effect). -/
def createPeerConnection (s : BroadcasterState) (viewerId : String) :
    BroadcasterState × List SignalMsg :=
  if mapHas s.peerConnections viewerId then
    (s, [])
  else
    let tracks : List Nat :=
      match s.localStream with
      | some ts => ts
      | none => []
    let pc : BPeer :=
      { senders := tracks, localDescription := none,
        remoteDescription := none, appliedCandidates := [] }
    if tracks.length > 0 then
      let pc : BPeer := { pc with localDescription := some offerSdp }
      ({ s with peerConnections := mapSet s.peerConnections viewerId pc },
       [{ type := SignalType.offer, sender := s.streamKey.getD "",
          recipient := some viewerId, signal := some offerSdp }])
    else
      ({ s with peerConnections := mapSet s.peerConnections viewerId pc }, [])

/-- `handleViewerSignal` from `src/unnamed/part_004` lines 69-97.  Note that
the viewer-join branch requires `localStreamRef.current` to be non-null, and
that the ice-candidate branch applies a candidate only when
`pc.remoteDescription` is set, with no else branch (no queue). -/
def handleViewerSignal (s : BroadcasterState) (msg : SignalMsg) :
    BroadcasterState × List SignalMsg :=
  match msg.type with
  | SignalType.viewerJoin =>
      if s.localStream.isSome ∧ s.isStreaming = true ∧
          s.externalStreamUrl = none then
        createPeerConnection s msg.sender
      else
        (s, [])
  | SignalType.answer =>
      match mapGet s.peerConnections msg.sender with
      | some pc =>
          let pc : BPeer := { pc with remoteDescription := some (msg.signal.getD 0) }
          ({ s with peerConnections := mapSet s.peerConnections msg.sender pc }, [])
      | none => (s, [])
  | SignalType.iceCandidate =>
      match mapGet s.peerConnections msg.sender with
      | some pc =>
          if pc.remoteDescription.isSome then
            let pc : BPeer :=
              { pc with appliedCandidates := pc.appliedCandidates ++ [msg.signal.getD 0] }
            ({ s with peerConnections := mapSet s.peerConnections msg.sender pc }, [])
          else
            (s, [])
      | none => (s, [])
  | SignalType.offer => (s, [])

/-- Fold `handleViewerSignal` over a list of incoming messages, collecting the
messages the broadcaster sends. -/
def handleAll (s : BroadcasterState) : List SignalMsg →
    BroadcasterState × List SignalMsg
  | [] => (s, [])
  | m :: ms =>
      let r := handleViewerSignal s m
      let r' := handleAll r.1 ms
      (r'.1, r.2 ++ r'.2)

/-- The broadcaster's `pc.onconnectionstatechange` handler
(`src/unnamed/part_004` lines 127-134): on `failed` or `disconnected`, close
the peer connection and delete the viewer's entry; it sends nothing. -/
def broadcasterOnConnStateChange (s : BroadcasterState) (viewerId : String)
    (st : ConnState) : BroadcasterState × List SignalMsg :=
  if st = ConnState.failed ∨ st = ConnState.disconnected then
    ({ s with peerConnections := mapDelete s.peerConnections viewerId,
              closedLog :=
                if mapHas s.peerConnections viewerId then
                  s.closedLog ++ [viewerId]
                else s.closedLog }, [])
  else
    (s, [])

/-- The media-attach effect of `useLiveStream` (`src/unnamed/part_004` lines
457-491): when a local stream is present, streaming is active and the stream
is not external, every peer connection without senders gets the current
tracks attached, and an offer is created and sent only when the connection
has no local description yet; connections that already have senders get
their tracks replaced instead.  This is the loop body, for one
`(viewerId, pc)` entry
of the map: a connection without senders (`pc.getSenders().length > 0` is
false) gets the current tracks added and — only when it has no local
description yet — an offer created, applied and sent to that viewer; a
connection that already has senders gets its tracks replaced
(`removeTrack` on every sender, then `addTrack` for every current track). -/
def attachOne (key : Option String) (ts : List Nat)
    (p : String × BPeer) : (String × BPeer) × List SignalMsg :=
  if p.2.senders.length = 0 then
    if p.2.localDescription = none then
      ((p.1, { p.2 with senders := ts, localDescription := some offerSdp }),
       [{ type := SignalType.offer, sender := key.getD "",
          recipient := some p.1, signal := some offerSdp }])
    else
      ((p.1, { p.2 with senders := ts }), [])
  else
    ((p.1, { p.2 with senders := ts }), [])

/-- The media-attach effect itself: the guard
`localStreamRef.current && state.isStreaming && !state.externalStreamUrl`,
then `attachOne` applied to every entry of the peer-connection map. -/
def mediaAttachEffect (s : BroadcasterState) :
    BroadcasterState × List SignalMsg :=
  match s.localStream with
  | none => (s, [])
  | some ts =>
      if s.isStreaming = true ∧ s.externalStreamUrl = none then
        let results := s.peerConnections.map (attachOne s.streamKey ts)
        ({ s with peerConnections := results.map Prod.fst },
         (results.map Prod.snd).flatten)
      else
        (s, [])

/-- Number of offer messages in `l` addressed to viewer `v`. -/
def offersTo (l : List SignalMsg) (v : String) : Nat :=
  l.countP (fun m =>
    decide (m.type = SignalType.offer) && decide (m.recipient = some v))

/-- Well-formedness of the peer-connection map: at most one binding per
viewer identity (true of a JS `Map` by construction). -/
def BWF (s : BroadcasterState) : Prop :=
  (s.peerConnections.map Prod.fst).Nodup

/-! ### Viewer side (`useStreamViewer` in `src/unnamed/part_004`) -/

/-- The composite key of a `live_viewers` presence row. -/
structure PresenceKey where
  streamId : String
  userId : Option String
  anonId : Option String
deriving DecidableEq, Repr

/-- Side effects emitted by the viewer: a channel send, the presence upsert
with `joined_at` done in `connect`, or the presence upsert with `left_at`
done in `disconnect`. -/
inductive VEffect where
  | sendMsg (m : SignalMsg)
  | presenceJoin (k : PresenceKey)
  | presenceLeave (k : PresenceKey)
deriving DecidableEq, Repr

/-- The viewer's single `RTCPeerConnection`. -/
structure VPeer where
  localDescription : Option Nat
  remoteDescription : Option Nat
  appliedCandidates : List Nat
deriving DecidableEq, Repr

/-- State of the `useStreamViewer` hook: the React state
(`remoteStream`, `isConnected`, `isConnecting`) and the refs.
`retryInterval` / `connectionTimeout` are true while the corresponding timer
is scheduled (the runtime consumes a one-shot timeout when it fires, so
firing clears `connectionTimeout` even though the code leaves the stale id
in `connectionTimeoutRef`).  `channelSubscribed` models `channelRef`, and
`closedCount` counts the calls to `pc.close()`. -/
structure ViewerState where
  viewerId : String
  remoteStream : Option Nat
  isConnected : Bool
  isConnecting : Bool
  pc : Option VPeer
  pendingViewerCandidates : List Nat
  retryInterval : Bool
  connectionTimeout : Bool
  viewerRecordKey : Option PresenceKey
  channelSubscribed : Bool
  closedCount : Nat
deriving DecidableEq, Repr

/-- A freshly mounted viewer hook: all refs null, all flags false. -/
def initialViewerState (vid : String) : ViewerState :=
  { viewerId := vid, remoteStream := none, isConnected := false,
    isConnecting := false, pc := none, pendingViewerCandidates := [],
    retryInterval := false, connectionTimeout := false,
    viewerRecordKey := none, channelSubscribed := false, closedCount := 0 }

/-- `handleBroadcasterSignal` from `src/unnamed/part_004` lines 532-625.
The recipient guard drops any message whose `to` field is present and is not
this viewer's id.  An offer clears the retry interval, creates the peer
connection if absent, applies the offer as remote description, creates and
applies the answer as local description, sends the answer to the offer's
sender, and then drains the pending candidate buffer in order.  An
ice-candidate is applied immediately when the connection exists with a
remote description, and buffered otherwise. -/
def handleBroadcasterSignal (s : ViewerState) (msg : SignalMsg) :
    ViewerState × List VEffect :=
  if msg.recipient.isSome ∧ msg.recipient ≠ some s.viewerId then
    (s, [])
  else
    match msg.type with
    | SignalType.offer =>
        let s := { s with retryInterval := false }
        let pc : VPeer :=
          match s.pc with
          | some pc => pc
          | none =>
              { localDescription := none, remoteDescription := none,
                appliedCandidates := [] }
        let pc : VPeer := { pc with remoteDescription := some (msg.signal.getD 0) }
        let pc : VPeer := { pc with localDescription := some answerSdp }
        let pc : VPeer :=
          { pc with appliedCandidates :=
              pc.appliedCandidates ++ s.pendingViewerCandidates }
        ({ s with pc := some pc, pendingViewerCandidates := [] },
         [VEffect.sendMsg
            { type := SignalType.answer, sender := s.viewerId,
              recipient := some msg.sender, signal := some answerSdp }])
    | SignalType.iceCandidate =>
        match s.pc with
        | some pc =>
            if pc.remoteDescription.isSome then
              let pc : VPeer :=
                { pc with appliedCandidates :=
                    pc.appliedCandidates ++ [msg.signal.getD 0] }
              ({ s with pc := some pc }, [])
            else
              ({ s with pendingViewerCandidates :=
                   s.pendingViewerCandidates ++ [msg.signal.getD 0] }, [])
        | none =>
            ({ s with pendingViewerCandidates :=
                 s.pendingViewerCandidates ++ [msg.signal.getD 0] }, [])
    | _ => (s, [])

/-- The viewer's `pc.ontrack` handler (`src/unnamed/part_004` lines 570-581):
store the remote stream, mark connected, and clear the abandonment timeout. -/
def viewerOnTrack (s : ViewerState) (stream : Nat) : ViewerState :=
  { s with remoteStream := some stream, isConnected := true,
           isConnecting := false, connectionTimeout := false }

/-- The viewer's `pc.onconnectionstatechange` handler (`src/unnamed/part_004`
lines 583-595).  On `connected` it sets the connected flags but, unlike
`ontrack`, it does not clear `connectionTimeoutRef`. -/
def viewerOnConnStateChange (s : ViewerState) (st : ConnState) : ViewerState :=
  if st = ConnState.connected then
    { s with isConnected := true, isConnecting := false }
  else if st = ConnState.disconnected ∨ st = ConnState.failed then
    { s with isConnected := false, remoteStream := none, isConnecting := false }
  else
    s

/-- `connect()` from `src/unnamed/part_004` lines 627-694, including the
SUBSCRIBED continuation: bail out when there is no stream id or the hook is
already connecting or connected; otherwise subscribe, send the first
viewer-join, arm the 2-second announce-retry interval, upsert the presence
row with `joined_at`, and arm the 45-second abandonment timeout. -/
def connect (s : ViewerState) (streamId : Option String)
    (userId : Option String) : ViewerState × List VEffect :=
  match streamId with
  | none => (s, [])
  | some sid =>
      if s.isConnecting = true ∨ s.isConnected = true then
        (s, [])
      else
        let key : PresenceKey :=
          { streamId := sid, userId := userId,
            anonId := if userId.isSome then none else some s.viewerId }
        ({ s with isConnecting := true, channelSubscribed := true,
                  retryInterval := true, connectionTimeout := true,
                  viewerRecordKey := some key },
         [VEffect.sendMsg
            { type := SignalType.viewerJoin, sender := s.viewerId,
              recipient := none, signal := none },
          VEffect.presenceJoin key])

/-- One firing of the announce-retry interval: sends another viewer-join if
the interval is still scheduled. -/
def retryTick (s : ViewerState) : ViewerState × List VEffect :=
  if s.retryInterval then
    (s, [VEffect.sendMsg
           { type := SignalType.viewerJoin, sender := s.viewerId,
             recipient := none, signal := none }])
  else
    (s, [])

/-- The 45-second abandonment timeout callback (`src/unnamed/part_004` lines
676-691).  The runtime fires a one-shot timeout only while it is scheduled;
firing consumes it.  The callback clears the retry interval, resets the
connecting and connected flags, closes and discards any partially created
peer connection, and clears the remote stream. -/
def onConnectionTimeout (s : ViewerState) : ViewerState :=
  if s.connectionTimeout then
    { s with connectionTimeout := false, retryInterval := false,
             isConnecting := false, isConnected := false,
             pc := none, remoteStream := none,
             closedCount := s.closedCount + (if s.pc.isSome then 1 else 0) }
  else
    s

/-- `disconnect()` from `src/unnamed/part_004` lines 696-737: clear both
timers, remove the channel subscription, close and discard the peer
connection, clear the remote stream and flags, and — only when a presence
key from `connect` is still stored — upsert the presence row with `left_at`
and clear the stored key. -/
def disconnect (s : ViewerState) : ViewerState × List VEffect :=
  let s' : ViewerState :=
    { s with connectionTimeout := false, retryInterval := false,
             channelSubscribed := false,
             closedCount := s.closedCount + (if s.pc.isSome then 1 else 0),
             pc := none, remoteStream := none,
             isConnected := false, isConnecting := false,
             viewerRecordKey := none }
  match s.viewerRecordKey with
  | some k => (s', [VEffect.presenceLeave k])
  | none => (s', [])

/-! ### Alternate viewer (`useStreamViewer` in `src/src/hooks/useLiveStream.tsx`)

In this implementation the viewer initiates the offer and the broadcaster
answers; its signal handler processes `answer` and `ice` messages. -/

/-- RTCPeerConnection signaling states. -/
inductive SigState where
  | stable
  | haveLocalOffer
  | haveRemoteOffer
  | haveLocalPranswer
  | haveRemotePranswer
  | closed
deriving DecidableEq, Repr

/-- The alternate viewer's peer connection (`pcRef`). -/
structure AltPeer where
  signalingState : SigState
  remoteDescription : Option Nat
  appliedCandidates : List Nat
deriving DecidableEq, Repr

/-- State of the alternate `useStreamViewer` hook: `clientIdRef`, the
`streamId` prop captured by the handler closure, `pcRef`, `queuedIceRef`
and the connected/connecting flags. -/
structure AltViewerState where
  clientId : String
  streamId : Option String
  pcRef : Option AltPeer
  queuedIce : List Nat
  isConnected : Bool
  isConnecting : Bool
deriving DecidableEq, Repr

/-- `handleSignal` from `src/src/hooks/useLiveStream.tsx` lines 414-463.
The recipient guard ignores a message whose `to` field is present and equals
neither `clientIdRef.current` nor `streamId`.  An `answer` is applied only
when a peer connection exists and its signaling state is `have-local-offer`
or `have-local-pranswer` (then the queued ICE candidates are flushed in FIFO
order and the hook is marked connected); in any other state the message is
logged and discarded.  An `ice` message is applied immediately when the peer
connection exists and queued otherwise. -/
def handleSignal (s : AltViewerState) (msg : SignalMsg) :
    AltViewerState × List VEffect :=
  let ignored : Bool :=
    match msg.recipient with
    | some t => decide (t ≠ s.clientId) && decide (s.streamId ≠ some t)
    | none => false
  if ignored then
    (s, [])
  else
    match msg.type with
    | SignalType.answer =>
        match s.pcRef with
        | none => (s, [])
        | some pc =>
            if pc.signalingState = SigState.haveLocalOffer ∨
                pc.signalingState = SigState.haveLocalPranswer then
              let pc : AltPeer :=
                { pc with
                    remoteDescription := some (msg.signal.getD 0),
                    signalingState := SigState.stable,
                    appliedCandidates := pc.appliedCandidates ++ s.queuedIce }
              ({ s with pcRef := some pc, queuedIce := [],
                        isConnected := true }, [])
            else
              (s, [])
    | SignalType.iceCandidate =>
        match s.pcRef with
        | none =>
            ({ s with queuedIce := s.queuedIce ++ [msg.signal.getD 0] }, [])
        | some pc =>
            let pc : AltPeer :=
              { pc with appliedCandidates :=
                  pc.appliedCandidates ++ [msg.signal.getD 0] }
            ({ s with pcRef := some pc }, [])
    | _ => (s, [])

/-! ### Message constructors used in the statements -/

/-- The viewer-join message sent by `connect` and the retry interval. -/
def joinFrom (v : String) : SignalMsg :=
  { type := SignalType.viewerJoin, sender := v, recipient := none,
    signal := none }

/-- An ice-candidate message from sender `v` carrying candidate `c`,
optionally addressed. -/
def iceFrom (v : String) (r : Option String) (c : Nat) : SignalMsg :=
  { type := SignalType.iceCandidate, sender := v, recipient := r,
    signal := some c }

/-- An answer message from sender `v` carrying description `a`. -/
def answerFrom (v : String) (r : Option String) (a : Nat) : SignalMsg :=
  { type := SignalType.answer, sender := v, recipient := r, signal := some a }

/-- An offer message from sender `b` to recipient `r` carrying
description `o`. -/
def offerFrom (b : String) (r : Option String) (o : Nat) : SignalMsg :=
  { type := SignalType.offer, sender := b, recipient := r, signal := some o }

/-! ### Lemmas about the association-list map -/

theorem mapGet_mapSet_self {β : Type} (l : List (String × β)) (k : String)
    (v : β) : mapGet (mapSet l k v) k = some v := by
  induction l with
  | nil => simp [mapSet, mapGet]
  | cons p t ih =>
      by_cases hp : p.1 = k
      · simp [mapSet, hp, mapGet]
      · simp [mapSet, hp, mapGet, ih]

theorem mapGet_mapSet_ne {β : Type} (l : List (String × β)) (k k' : String)
    (v : β) (h : k' ≠ k) : mapGet (mapSet l k v) k' = mapGet l k' := by
  have hk : ¬k = k' := fun hh => h hh.symm
  induction l with
  | nil => simp [mapSet, mapGet, hk]
  | cons p t ih =>
      by_cases hp : p.1 = k
      · have hp' : ¬p.1 = k' := by rw [hp]; exact hk
        simp [mapSet, hp, mapGet, hp', hk]
      · simp [mapSet, hp, mapGet, ih]

theorem mapGet_mapDelete_self {β : Type} (l : List (String × β))
    (k : String) : mapGet (mapDelete l k) k = none := by
  induction l with
  | nil => simp [mapDelete, mapGet]
  | cons p t ih =>
      by_cases hp : p.1 = k
      · simpa [mapDelete, List.filter_cons, hp] using ih
      · simpa [mapDelete, List.filter_cons, hp, mapGet] using ih

theorem mapGet_mapDelete_ne {β : Type} (l : List (String × β))
    (k k' : String) (h : k' ≠ k) :
    mapGet (mapDelete l k) k' = mapGet l k' := by
  induction l with
  | nil => simp [mapDelete, mapGet]
  | cons p t ih =>
      by_cases hp : p.1 = k
      · have hk : ¬k = k' := fun hh => h hh.symm
        have hp' : ¬p.1 = k' := by rw [hp]; exact hk
        simpa [mapDelete, List.filter_cons, hp, mapGet, hp', hk] using ih
      · by_cases hp' : p.1 = k'
        · simp [mapDelete, List.filter_cons, hp, mapGet, hp', h]
        · simpa [mapDelete, List.filter_cons, hp, mapGet, hp', h] using ih

theorem mapGet_eq_none_of_not_mem {β : Type} (l : List (String × β))
    (k : String) (h : k ∉ l.map Prod.fst) : mapGet l k = none := by
  induction l with
  | nil => simp [mapGet]
  | cons p t ih =>
      simp only [List.map_cons, List.mem_cons, not_or] at h
      have hp : ¬p.1 = k := fun hh => h.1 hh.symm
      simp [mapGet, hp, ih h.2]

/-! ### C2: join idempotence -/

/-- One repeated join is ignored outright: when the map already has a
(non-failed, since failed links are deleted) PeerLink for the sender,
`handleViewerSignal` returns without creating anything or sending. -/
theorem handleViewerSignal_join_mem (s : BroadcasterState) (v : String)
    (h : mapHas s.peerConnections v = true) :
    handleViewerSignal s (joinFrom v) = (s, []) := by
  simp [handleViewerSignal, joinFrom, createPeerConnection, h]

/-- C2: for every sequence of viewer-join messages carrying the same viewer
identity, while a non-failed PeerLink for that identity already exists in
the broadcaster's map, no additional PeerLink is created and nothing is
sent (each repeated join is ignored), and the map holds at most one
PeerLink per viewer identity. -/
theorem claim_c2_join_idempotent (s : BroadcasterState) (v : String)
    (n : Nat) (h : mapHas s.peerConnections v = true) (hwf : BWF s) :
    handleAll s (List.replicate n (joinFrom v)) = (s, []) ∧
    (s.peerConnections.map Prod.fst).count v ≤ 1 := by
  constructor
  · induction n with
    | zero => simp [handleAll]
    | succ m ih =>
        simp [List.replicate_succ, handleAll,
              handleViewerSignal_join_mem s v h, ih]
  · exact List.nodup_iff_count_le_one.mp hwf v

/-- Concrete instantiation of `claim_c2_join_idempotent`: a broadcaster with
one live PeerLink for viewer v ignores three repeated joins from v. -/
def c2peer : BPeer :=
  { senders := [3], localDescription := some offerSdp,
    remoteDescription := none, appliedCandidates := [] }

def c2state : BroadcasterState :=
  { isStreaming := true, externalStreamUrl := none, streamKey := some "k",
    localStream := some [3], peerConnections := [("v", c2peer)],
    closedLog := [] }

theorem claim_c2_witness :
    mapHas c2state.peerConnections "v" = true ∧ BWF c2state ∧
    (handleAll c2state (List.replicate 3 (joinFrom "v")) = (c2state, []) ∧
     (c2state.peerConnections.map Prod.fst).count "v" ≤ 1) :=
  ⟨by decide, by unfold BWF; decide,
   claim_c2_join_idempotent c2state "v" 3 (by decide) (by unfold BWF; decide)⟩

/-! ### C7: disconnect idempotence -/

/-- C7: viewer `disconnect()` is idempotent: a second call in succession is
a no-op — it emits no effect at all (in particular no second
presence-leave write, the key was cleared by the first call), performs no
second `pc.close()`, and leaves the already-disconnected state unchanged. -/
theorem claim_c7_disconnect_idempotent (s : ViewerState) :
    disconnect (disconnect s).1 = ((disconnect s).1, []) := by
  cases h : s.viewerRecordKey <;> simp [disconnect, h]

/-! ### C8: broadcaster transport failure is scoped to one viewer -/

/-- C8: when the transport for viewer v reports failed or disconnected, the
broadcaster closes v's peer connection and removes exactly v's entry: v is
no longer in the map, every other viewer's entry is untouched, nothing is
sent (no auto-retry), and the rest of the broadcaster state is unchanged. -/
theorem claim_c8_failure_scoped (s : BroadcasterState) (v : String)
    (st : ConnState)
    (hst : st = ConnState.failed ∨ st = ConnState.disconnected) :
    mapGet (broadcasterOnConnStateChange s v st).1.peerConnections v =
      none ∧
    (∀ w, w ≠ v →
      mapGet (broadcasterOnConnStateChange s v st).1.peerConnections w =
        mapGet s.peerConnections w) ∧
    (broadcasterOnConnStateChange s v st).2 = [] ∧
    (mapHas s.peerConnections v = true →
      (broadcasterOnConnStateChange s v st).1.closedLog =
        s.closedLog ++ [v]) ∧
    (broadcasterOnConnStateChange s v st).1.isStreaming = s.isStreaming ∧
    (broadcasterOnConnStateChange s v st).1.localStream = s.localStream := by
  rw [broadcasterOnConnStateChange, if_pos hst]
  refine ⟨mapGet_mapDelete_self _ _,
          fun w hw => mapGet_mapDelete_ne _ _ _ hw, rfl,
          fun hh => by simp [hh], rfl, rfl⟩

/-- Concrete instantiation of `claim_c8_failure_scoped`: two viewers, the
transport of v fails, w's entry survives untouched. -/
def c8state : BroadcasterState :=
  { isStreaming := true, externalStreamUrl := none, streamKey := some "k",
    localStream := some [3],
    peerConnections := [("v", c2peer), ("w", c2peer)], closedLog := [] }

theorem claim_c8_witness :
    (ConnState.failed = ConnState.failed ∨
     ConnState.failed = ConnState.disconnected) ∧
    (mapGet (broadcasterOnConnStateChange c8state "v"
        ConnState.failed).1.peerConnections "v" = none ∧
     (∀ w, w ≠ "v" →
       mapGet (broadcasterOnConnStateChange c8state "v"
           ConnState.failed).1.peerConnections w =
         mapGet c8state.peerConnections w) ∧
     (broadcasterOnConnStateChange c8state "v" ConnState.failed).2 = [] ∧
     (mapHas c8state.peerConnections "v" = true →
       (broadcasterOnConnStateChange c8state "v"
           ConnState.failed).1.closedLog = c8state.closedLog ++ ["v"]) ∧
     (broadcasterOnConnStateChange c8state "v"
         ConnState.failed).1.isStreaming = c8state.isStreaming ∧
     (broadcasterOnConnStateChange c8state "v"
         ConnState.failed).1.localStream = c8state.localStream) :=
  ⟨Or.inl rfl,
   claim_c8_failure_scoped c8state "v" ConnState.failed (Or.inl rfl)⟩

/-! ### C9: stray answers are discarded -/

/-- C9: in the alternate viewer, an answer arriving when the transport is
not awaiting one — the peer connection is absent, or its signaling state is
neither have-local-offer nor have-local-pranswer — is discarded: the
handler (a total function, so it cannot throw) returns with the state
completely unchanged and emits nothing. -/
theorem claim_c9_stray_answer_discarded (s : AltViewerState) (m : SignalMsg)
    (hty : m.type = SignalType.answer)
    (h : s.pcRef = none ∨ ∀ pc, s.pcRef = some pc →
        pc.signalingState ≠ SigState.haveLocalOffer ∧
        pc.signalingState ≠ SigState.haveLocalPranswer) :
    handleSignal s m = (s, []) := by
  obtain ⟨ty, sd, rc, sg⟩ := m
  simp only at hty
  subst hty
  rcases h with hpc | hcond
  · simp [handleSignal, hpc]
  · cases hpc : s.pcRef with
    | none => simp [handleSignal, hpc]
    | some pc =>
        have hc := hcond pc hpc
        simp [handleSignal, hpc, hc.1, hc.2]

/-- Concrete instantiation of `claim_c9_stray_answer_discarded`: an answer
arrives while the connection is in the stable state. -/
def c9state : AltViewerState :=
  { clientId := "me", streamId := some "stream1",
    pcRef := some { signalingState := SigState.stable,
                    remoteDescription := none, appliedCandidates := [] },
    queuedIce := [4], isConnected := false, isConnecting := false }

theorem claim_c9_witness :
    (answerFrom "b" (some "me") 3).type = SignalType.answer ∧
    handleSignal c9state (answerFrom "b" (some "me") 3) = (c9state, []) :=
  ⟨rfl,
   claim_c9_stray_answer_discarded c9state (answerFrom "b" (some "me") 3)
     rfl
     (Or.inr (fun pc hpc => by
        simp only [c9state] at hpc
        cases hpc
        exact ⟨by decide, by decide⟩))⟩

/-! ### C10: recipient guard -/

/-- C10 (amended): the primary viewer handler ignores — state unchanged,
nothing emitted — every message whose recipient field is present and names
an identity other than the viewer's own; the alternate handler does so only
when the recipient also differs from the stream identifier (a message
addressed to the stream id is processed, see the counterexample). -/
theorem claim_c10_recipient_guard (s : ViewerState) (m : SignalMsg)
    (s2 : AltViewerState) (m2 : SignalMsg) (t : String)
    (h1 : m.recipient.isSome = true) (h2 : m.recipient ≠ some s.viewerId)
    (h3 : m2.recipient = some t) (h4 : t ≠ s2.clientId)
    (h5 : s2.streamId ≠ some t) :
    handleBroadcasterSignal s m = (s, []) ∧ handleSignal s2 m2 = (s2, []) := by
  constructor
  · rw [handleBroadcasterSignal, if_pos ⟨h1, h2⟩]
  · simp [handleSignal, h3, h4, h5]

/-- C10 counterexample: in the alternate viewer, an ice message addressed to
the stream identifier — a recipient different from the viewer's own
identity — is not ignored: it mutates the pending-candidate buffer. -/
def c10state : AltViewerState :=
  { clientId := "me", streamId := some "stream1", pcRef := none,
    queuedIce := [], isConnected := false, isConnecting := false }

theorem claim_c10_counterexample :
    (iceFrom "other" (some "stream1") 7).recipient.isSome = true ∧
    (iceFrom "other" (some "stream1") 7).recipient ≠
      some c10state.clientId ∧
    handleSignal c10state (iceFrom "other" (some "stream1") 7) ≠
      (c10state, []) ∧
    (handleSignal c10state (iceFrom "other" (some "stream1") 7)).1.queuedIce
      = [7] := by decide

/-- Concrete instantiation of `claim_c10_recipient_guard`. -/
def c10vstate : ViewerState := initialViewerState "me"

theorem claim_c10_witness :
    (iceFrom "b" (some "other") 7).recipient.isSome = true ∧
    (iceFrom "b" (some "other") 7).recipient ≠ some c10vstate.viewerId ∧
    (iceFrom "b" (some "other2") 8).recipient = some "other2" ∧
    "other2" ≠ c10state.clientId ∧ c10state.streamId ≠ some "other2" ∧
    (handleBroadcasterSignal c10vstate (iceFrom "b" (some "other") 7) =
       (c10vstate, []) ∧
     handleSignal c10state (iceFrom "b" (some "other2") 8) =
       (c10state, [])) :=
  ⟨by decide, by decide, by decide, by decide, by decide,
   claim_c10_recipient_guard c10vstate (iceFrom "b" (some "other") 7)
     c10state (iceFrom "b" (some "other2") 8) "other2"
     (by decide) (by decide) (by decide) (by decide) (by decide)⟩

/-! ### C6: broadcaster-side handling of early ICE candidates -/

/-- The peer after one more applied candidate. -/
def withApplied (pc : BPeer) (c : Nat) : BPeer :=
  { pc with appliedCandidates := pc.appliedCandidates ++ [c] }

/-- C6 (amended): on an ice-candidate from a viewer with a known PeerLink,
the broadcaster applies the candidate immediately when the remote
description is already set; otherwise the candidate is discarded — the
primary implementation keeps no broadcaster-side pending-candidate queue. -/
theorem claim_c6_ice_applied_or_dropped (s : BroadcasterState) (v : String)
    (c : Nat) (pc : BPeer) (hpc : mapGet s.peerConnections v = some pc) :
    (pc.remoteDescription.isSome = true →
      handleViewerSignal s (iceFrom v none c) =
        ({ s with peerConnections :=
             mapSet s.peerConnections v (withApplied pc c) }, [])) ∧
    (pc.remoteDescription = none →
      handleViewerSignal s (iceFrom v none c) = (s, [])) := by
  constructor <;> intro h <;>
    simp [handleViewerSignal, iceFrom, hpc, h, withApplied]

/-- C6 counterexample: a candidate arriving while v's PeerLink has no remote
description yet is dropped, not queued: the state is completely unchanged,
and after the answer later sets the remote description the candidate has
not been applied (it was lost, contradicting the claimed drain). -/
def c6peer : BPeer :=
  { senders := [10], localDescription := some offerSdp,
    remoteDescription := none, appliedCandidates := [] }

def c6state : BroadcasterState :=
  { isStreaming := true, externalStreamUrl := none, streamKey := some "k",
    localStream := some [10], peerConnections := [("v", c6peer)],
    closedLog := [] }

theorem claim_c6_counterexample :
    handleViewerSignal c6state (iceFrom "v" none 7) = (c6state, []) ∧
    (mapGet (handleViewerSignal
        (handleViewerSignal c6state (iceFrom "v" none 7)).1
        (answerFrom "v" none 3)).1.peerConnections "v").map
      (fun pc => pc.remoteDescription) = some (some 3) ∧
    (mapGet (handleViewerSignal
        (handleViewerSignal c6state (iceFrom "v" none 7)).1
        (answerFrom "v" none 3)).1.peerConnections "v").map
      (fun pc => pc.appliedCandidates) = some [] := by decide

/-- Concrete instantiation of `claim_c6_ice_applied_or_dropped`. -/
def c6peer2 : BPeer :=
  { senders := [10], localDescription := some offerSdp,
    remoteDescription := some 3, appliedCandidates := [] }

def c6state2 : BroadcasterState :=
  { c6state with peerConnections := [("v", c6peer2)] }

theorem claim_c6_witness :
    mapGet c6state2.peerConnections "v" = some c6peer2 ∧
    ((c6peer2.remoteDescription.isSome = true →
      handleViewerSignal c6state2 (iceFrom "v" none 7) =
        ({ c6state2 with
             peerConnections :=
               mapSet c6state2.peerConnections "v" (withApplied c6peer2 7) },
         [])) ∧
     (c6peer2.remoteDescription = none →
      handleViewerSignal c6state2 (iceFrom "v" none 7) = (c6state2, []))) :=
  ⟨by decide,
   claim_c6_ice_applied_or_dropped c6state2 "v" 7 c6peer2 (by decide)⟩

/-! ### C4: the 45-second abandonment timeout -/

/-- C4: when the 45-second abandonment timeout fires (it is armed by
`connect`, and the runtime fires a one-shot timeout at most once), exactly
one failure transition happens: the announce-retry interval is cancelled,
any partially created transport is closed (one `pc.close()`) and discarded,
the state becomes not-connecting/not-connected with no remote stream, and
afterwards no timer fires again — a second firing is a no-op and the retry
interval emits nothing. -/
theorem claim_c4_timeout_failure (s : ViewerState)
    (h : s.connectionTimeout = true) :
    (onConnectionTimeout s).retryInterval = false ∧
    (onConnectionTimeout s).connectionTimeout = false ∧
    (onConnectionTimeout s).isConnecting = false ∧
    (onConnectionTimeout s).isConnected = false ∧
    (onConnectionTimeout s).pc = none ∧
    (onConnectionTimeout s).remoteStream = none ∧
    (s.pc.isSome = true →
      (onConnectionTimeout s).closedCount = s.closedCount + 1) ∧
    onConnectionTimeout (onConnectionTimeout s) = onConnectionTimeout s ∧
    retryTick (onConnectionTimeout s) = (onConnectionTimeout s, []) := by
  unfold onConnectionTimeout retryTick
  simp [h]
  intro hpc hn
  rw [hn] at hpc
  simp at hpc

/-- Concrete instantiation of `claim_c4_timeout_failure`: a viewer that
connected and received an offer (so a partially created transport exists)
but never reached a connected transport state. -/
def c4state : ViewerState :=
  (handleBroadcasterSignal
    (connect (initialViewerState "v") (some "stream") none).1
    (offerFrom "b" (some "v") 5)).1

theorem claim_c4_witness :
    c4state.connectionTimeout = true ∧
    ((onConnectionTimeout c4state).retryInterval = false ∧
     (onConnectionTimeout c4state).connectionTimeout = false ∧
     (onConnectionTimeout c4state).isConnecting = false ∧
     (onConnectionTimeout c4state).isConnected = false ∧
     (onConnectionTimeout c4state).pc = none ∧
     (onConnectionTimeout c4state).remoteStream = none ∧
     (c4state.pc.isSome = true →
       (onConnectionTimeout c4state).closedCount = c4state.closedCount + 1) ∧
     onConnectionTimeout (onConnectionTimeout c4state) =
       onConnectionTimeout c4state ∧
     retryTick (onConnectionTimeout c4state) =
       (onConnectionTimeout c4state, [])) :=
  ⟨by decide, claim_c4_timeout_failure c4state (by decide)⟩

/-! ### C5: cancelling the abandonment timer on success -/

/-- C5 is refuted by the code: after `connect` and an offer, a transition to
connected reported by `onconnectionstatechange` sets the connected flags
but does not cancel the 45-second abandonment timer (it stays armed), and
when that timer later fires it tears the already-connected viewer back down
to a disconnected state; only the `ontrack` path cancels the timer. -/
def c5afterConnect : ViewerState :=
  (connect (initialViewerState "v") (some "stream") none).1

def c5afterOffer : ViewerState :=
  (handleBroadcasterSignal c5afterConnect (offerFrom "b" (some "v") 5)).1

def c5connected : ViewerState :=
  viewerOnConnStateChange c5afterOffer ConnState.connected

theorem claim_c5_timer_not_cancelled :
    c5connected.isConnected = true ∧
    c5connected.connectionTimeout = true ∧
    (onConnectionTimeout c5connected).isConnected = false ∧
    (onConnectionTimeout c5connected).pc = none ∧
    (viewerOnTrack c5afterOffer 9).isConnected = true ∧
    (viewerOnTrack c5afterOffer 9).connectionTimeout = false := by decide

/-! ### C3: viewer-side candidate buffering commutes with the offer -/

/-- C3: on the viewer side, early ICE candidates are never dropped: from any
state in which the buffered-candidates invariant holds (once the remote
description is set the buffer is empty — which is how the code maintains
it, since the offer handler drains the buffer and the ice handler buffers
only while no remote description is set), processing an offer and then an
ice-candidate leaves the viewer in exactly the same state as processing the
same ice-candidate and then the offer. -/
theorem claim_c3_buffering_commutes (s : ViewerState) (b1 b2 : String)
    (o c : Nat)
    (hinv : ∀ pc, s.pc = some pc → pc.remoteDescription.isSome = true →
      s.pendingViewerCandidates = []) :
    (handleBroadcasterSignal
        (handleBroadcasterSignal s (offerFrom b1 (some s.viewerId) o)).1
        (iceFrom b2 (some s.viewerId) c)).1 =
    (handleBroadcasterSignal
        (handleBroadcasterSignal s (iceFrom b2 (some s.viewerId) c)).1
        (offerFrom b1 (some s.viewerId) o)).1 := by
  cases hpc : s.pc with
  | none =>
      simp [handleBroadcasterSignal, offerFrom, iceFrom, hpc]
  | some pc =>
      cases hrd : pc.remoteDescription with
      | none =>
          simp [handleBroadcasterSignal, offerFrom, iceFrom, hpc, hrd]
      | some d =>
          have hp : s.pendingViewerCandidates = [] :=
            hinv pc hpc (by simp [hrd])
          simp [handleBroadcasterSignal, offerFrom, iceFrom, hpc, hrd, hp]

/-- Concrete instantiation of `claim_c3_buffering_commutes`: a fresh viewer
that already buffered candidate 9 before any transport exists. -/
def c3state : ViewerState :=
  { initialViewerState "v" with pendingViewerCandidates := [9],
                                isConnecting := true, retryInterval := true,
                                connectionTimeout := true }

theorem claim_c3_witness :
    (handleBroadcasterSignal
        (handleBroadcasterSignal c3state (offerFrom "b" (some "v") 5)).1
        (iceFrom "b" (some "v") 7)).1 =
    (handleBroadcasterSignal
        (handleBroadcasterSignal c3state (iceFrom "b" (some "v") 7)).1
        (offerFrom "b" (some "v") 5)).1 :=
  claim_c3_buffering_commutes c3state "b" "b" 5 7
    (fun pc hpc _ => by simp [c3state, initialViewerState] at hpc)

/-! ### C1: joins without media, deferred offers, and offer counting -/

/-- The transformation `attachOne` performs on the peer connection itself:
every branch ends with the current tracks as senders, and the local
description is set (to the offer) exactly when it was absent and the
connection had no senders. -/
def attachPC (ts : List Nat) (pc : BPeer) : BPeer :=
  if pc.senders.length = 0 then
    if pc.localDescription = none then
      { pc with senders := ts, localDescription := some offerSdp }
    else
      { pc with senders := ts }
  else
    { pc with senders := ts }

theorem attachOne_fst_eq (key : Option String) (ts : List Nat)
    (p : String × BPeer) :
    (attachOne key ts p).1 = (p.1, attachPC ts p.2) := by
  unfold attachOne attachPC
  by_cases h1 : p.2.senders.length = 0
  · by_cases h2 : p.2.localDescription = none <;> simp [h1, h2]
  · simp [h1]

theorem offersTo_attachOne (key : Option String) (ts : List Nat)
    (p : String × BPeer) (v : String) :
    offersTo (attachOne key ts p).2 v =
      if p.1 = v ∧ p.2.senders.length = 0 ∧ p.2.localDescription = none
      then 1 else 0 := by
  unfold attachOne offersTo
  by_cases h1 : p.2.senders.length = 0
  · by_cases h2 : p.2.localDescription = none
    · by_cases h3 : p.1 = v <;> simp [h1, h2, h3]
    · simp [h1, h2]
  · simp [h1]

theorem offersTo_append (l l' : List SignalMsg) (v : String) :
    offersTo (l ++ l') v = offersTo l v + offersTo l' v := by
  simp [offersTo, List.countP_append]

/-- No offers are produced for a viewer that is not in the map. -/
theorem offersTo_attach_none (key : Option String) (ts : List Nat)
    (l : List (String × BPeer)) (v : String) (h : mapGet l v = none) :
    offersTo ((l.map (attachOne key ts)).map Prod.snd).flatten v = 0 := by
  induction l with
  | nil => simp [offersTo]
  | cons p t ih =>
      have hp : ¬p.1 = v := by
        intro hh
        simp [mapGet, hh] at h
      have ht : mapGet t v = none := by
        simpa [mapGet, hp] using h
      have ih' := ih ht
      simp only [List.map_map] at ih'
      simp [offersTo_append, offersTo_attachOne, hp, ih']

/-- For a viewer present in a map with no duplicate keys, the attach effect
produces exactly one offer when that viewer's connection has no senders and
no local description, and none otherwise. -/
theorem offersTo_attach_some (key : Option String) (ts : List Nat)
    (l : List (String × BPeer)) (v : String) (pc : BPeer)
    (h : mapGet l v = some pc) (hnd : (l.map Prod.fst).Nodup) :
    offersTo ((l.map (attachOne key ts)).map Prod.snd).flatten v =
      if pc.senders.length = 0 ∧ pc.localDescription = none then 1
      else 0 := by
  induction l with
  | nil => simp [mapGet] at h
  | cons p t ih =>
      have hnd' := List.nodup_cons.mp hnd
      by_cases hp : p.1 = v
      · have hpc : pc = p.2 := by
          simp [mapGet, hp] at h
          exact h.symm
        have hv : v ∉ t.map Prod.fst := by
          rw [← hp]
          exact hnd'.1
        have ht : mapGet t v = none := mapGet_eq_none_of_not_mem t v hv
        have hrest := offersTo_attach_none key ts t v ht
        simp only [List.map_map] at hrest
        simp [offersTo_append, offersTo_attachOne, hp, hpc, hrest]
      · have ht : mapGet t v = some pc := by
          simpa [mapGet, hp] using h
        have ih' := ih ht hnd'.2
        simp only [List.map_map] at ih'
        simp [offersTo_append, offersTo_attachOne, hp, ih']

/-- The attach effect transforms the map pointwise by `attachPC`. -/
theorem mapGet_attach_map (key : Option String) (ts : List Nat)
    (l : List (String × BPeer)) (v : String) :
    mapGet ((l.map (attachOne key ts)).map Prod.fst) v =
      (mapGet l v).map (attachPC ts) := by
  induction l with
  | nil => simp [mapGet]
  | cons p t ih =>
      simp only [List.map_cons, attachOne_fst_eq, mapGet]
      have ih' := ih
      simp only [List.map_map] at ih'
      by_cases hp : p.1 = v
      · simp [hp]
      · simp [hp, ih']

/-- The attach effect does not change the set of keys. -/
theorem attach_keys (key : Option String) (ts : List Nat)
    (l : List (String × BPeer)) :
    ((l.map (attachOne key ts)).map Prod.fst).map Prod.fst =
      l.map Prod.fst := by
  induction l with
  | nil => simp
  | cons p t ih => simp [attachOne_fst_eq, ih]

/-- C1 (amended): when a viewer-join arrives while no local media object is
attached, no PeerLink is created at all — the join is ignored (the viewer's
repeated 2-second announcements cover this race); a deferred-offer PeerLink
can only exist with no senders and no local description, and for any such
PeerLink, once local media with at least one track is present the
media-attach effect attaches tracks and sends exactly one offer to that
viewer — and running the effect again sends no further offer (no
duplicate). -/
theorem claim_c1_deferred_offer (s : BroadcasterState) (v : String)
    (ts : List Nat) (pc : BPeer)
    (hmedia : s.localStream = some ts) (hts : ts ≠ [])
    (hstr : s.isStreaming = true) (hext : s.externalStreamUrl = none)
    (hwf : BWF s) (hget : mapGet s.peerConnections v = some pc)
    (hsnd : pc.senders = []) (hld : pc.localDescription = none) :
    (∀ s' w, s'.localStream = none →
      handleViewerSignal s' (joinFrom w) = (s', [])) ∧
    offersTo (mediaAttachEffect s).2 v = 1 ∧
    offersTo (mediaAttachEffect (mediaAttachEffect s).1).2 v = 0 := by
  have hseq : mediaAttachEffect s =
      ({ s with peerConnections :=
           (s.peerConnections.map (attachOne s.streamKey ts)).map Prod.fst },
       ((s.peerConnections.map (attachOne s.streamKey ts)).map
         Prod.snd).flatten) := by
    simp [mediaAttachEffect, hmedia, hstr, hext]
  refine ⟨?_, ?_, ?_⟩
  · intro s' w hnone
    simp [handleViewerSignal, joinFrom, hnone]
  · rw [hseq]
    have hcount :=
      offersTo_attach_some s.streamKey ts s.peerConnections v pc hget hwf
    simpa [hsnd, hld] using hcount
  · rw [hseq]
    have hget1 : mapGet ((s.peerConnections.map
        (attachOne s.streamKey ts)).map Prod.fst) v =
        some (attachPC ts pc) := by
      simpa [hget] using mapGet_attach_map s.streamKey ts s.peerConnections v
    have hwf1 : (((s.peerConnections.map
        (attachOne s.streamKey ts)).map Prod.fst).map Prod.fst).Nodup := by
      rw [attach_keys]
      exact hwf
    have hcount := offersTo_attach_some s.streamKey ts
      ((s.peerConnections.map (attachOne s.streamKey ts)).map Prod.fst)
      v (attachPC ts pc) hget1 hwf1
    have hsen : (attachPC ts pc).senders = ts := by
      unfold attachPC
      split_ifs <;> rfl
    have hlen : ¬ts.length = 0 := fun hh => hts (List.length_eq_zero.mp hh)
    have hcount' : offersTo ((((s.peerConnections.map
        (attachOne s.streamKey ts)).map Prod.fst).map
        (attachOne s.streamKey ts)).map Prod.snd).flatten v = 0 := by
      rw [hcount, hsen]
      simp [hlen]
    simpa [mediaAttachEffect, hmedia, hstr, hext] using hcount'

/-- C1 counterexample: a broadcaster that is streaming a camera stream but
whose local media is not yet attached ignores a viewer-join outright — no
PeerLink is created for the joining viewer (and nothing is sent), refuting
the claim that the PeerLink is still created with the offer deferred. -/
def c1state : BroadcasterState :=
  { isStreaming := true, externalStreamUrl := none, streamKey := some "k",
    localStream := none, peerConnections := [], closedLog := [] }

theorem claim_c1_counterexample :
    c1state.isStreaming = true ∧ c1state.externalStreamUrl = none ∧
    c1state.localStream = none ∧
    mapHas (handleViewerSignal c1state (joinFrom "v")).1.peerConnections
      "v" = false ∧
    (handleViewerSignal c1state (joinFrom "v")).1 = c1state ∧
    (handleViewerSignal c1state (joinFrom "v")).2 = [] := by decide

/-- Concrete instantiation of `claim_c1_deferred_offer`: viewer v joined
while the attached stream still had zero tracks (PeerLink present, no
senders, no local description), viewer w is already fully negotiated;
once media with two tracks is attached, exactly one offer goes to v. -/
def c1peerDeferred : BPeer :=
  { senders := [], localDescription := none, remoteDescription := none,
    appliedCandidates := [] }

def c1wstate : BroadcasterState :=
  { isStreaming := true, externalStreamUrl := none, streamKey := some "k",
    localStream := some [3, 4],
    peerConnections := [("v", c1peerDeferred), ("w", c2peer)],
    closedLog := [] }

theorem claim_c1_witness :
    c1wstate.localStream = some [3, 4] ∧
    mapGet c1wstate.peerConnections "v" = some c1peerDeferred ∧
    ((∀ s' w, s'.localStream = none →
       handleViewerSignal s' (joinFrom w) = (s', [])) ∧
     offersTo (mediaAttachEffect c1wstate).2 "v" = 1 ∧
     offersTo (mediaAttachEffect (mediaAttachEffect c1wstate).1).2 "v"
       = 0) :=
  ⟨rfl, by decide,
   claim_c1_deferred_offer c1wstate "v" [3, 4] c1peerDeferred rfl
     (by decide) rfl rfl (by unfold BWF; decide) (by decide) rfl rfl⟩
